import Mathlib

/-!
# Shallow embedding of the `sun-times` crate (`src/lib.rs`)

The crate computes approximate sunrise/sunset instants (`sun_times`) and the
instantaneous solar altitude (`altitude`) from `f64` arithmetic.  The embedding
models `f64` values as real numbers and tracks the crate's NaN propagation
explicitly: every partial `f64` operation that can produce NaN on the code's
data path (`sqrt` of a negative number, `asin`/`acos` outside `[-1, 1]`,
division by zero feeding `acos`) is embedded as an `Option ℝ`-valued
operation, and NaN propagation through the subsequent arithmetic becomes
`Option.bind`.  UTC instants are embedded as their integer Unix timestamp
(chrono's `DateTime<Utc>` at whole-second granularity, which is the
granularity the crate itself uses), and a `chrono` `NaiveDate` as its day
number relative to 1970-01-01.
-/

namespace SunTimes

noncomputable section

/-- Rust `f64::trunc` (round toward zero), as an integer. -/
def rustTrunc (x : ℝ) : ℤ := if 0 ≤ x then ⌊x⌋ else ⌈x⌉

/-- Rust `f64::round` (round to nearest integer, ties away from zero), as an integer. -/
def rustRound (x : ℝ) : ℤ := if 0 ≤ x then ⌊x + 1 / 2⌋ else ⌈x - 1 / 2⌉

/-- Rust `%` on `f64`: the truncated remainder, `x - y * trunc (x / y)`. -/
def rustRem (x y : ℝ) : ℝ := x - y * rustTrunc (x / y)

/-- Rust `f64::rem_euclid`: `let r = self % rhs; if r < 0 { r + rhs.abs() } else { r }`. -/
def rem_euclid (x y : ℝ) : ℝ :=
  if rustRem x y < 0 then rustRem x y + |y| else rustRem x y

/-- Rust `f64::to_radians`: `self * (PI / 180)`. -/
def to_radians (x : ℝ) : ℝ := x * (Real.pi / 180)

/-- Rust `f64::to_degrees`: `self * (180 / PI)`. -/
def to_degrees (x : ℝ) : ℝ := x * (180 / Real.pi)

/-- Rust `f64::sqrt`; `none` models the NaN produced for a negative argument. -/
def sqrtOpt (x : ℝ) : Option ℝ := if 0 ≤ x then some (Real.sqrt x) else none

/-- Rust `f64::asin`; `none` models the NaN produced outside `[-1, 1]`. -/
def asinOpt (x : ℝ) : Option ℝ :=
  if -1 ≤ x ∧ x ≤ 1 then some (Real.arcsin x) else none

/-- Rust `(num / den).acos()`.  `none` models NaN: IEEE division by zero yields
`±∞` (or NaN for `0/0`) and `f64::acos` of any of those, or of a quotient
outside `[-1, 1]`, is NaN. -/
def divAcosOpt (num den : ℝ) : Option ℝ :=
  if den = 0 then none
  else if -1 ≤ num / den ∧ num / den ≤ 1 then some (Real.arccos (num / den)) else none

/-- Rust `f64::atan2` (`self` is the `y` coordinate, the argument the `x` coordinate). -/
def atan2 (y x : ℝ) : ℝ :=
  if 0 < x then Real.arctan (y / x)
  else if x < 0 then
    if 0 ≤ y then Real.arctan (y / x) + Real.pi else Real.arctan (y / x) - Real.pi
  else if 0 < y then Real.pi / 2
  else if y < 0 then -(Real.pi / 2)
  else 0

/-- `const UNIX_EPOCH: JulianDate = JulianDate(2440587.5);` -/
def UNIX_EPOCH : ℝ := 2440587.5

/-- `const SECONDS_PER_DAY: u64 = 24 * 60 * 60;` -/
def SECONDS_PER_DAY : ℕ := 24 * 60 * 60

/-- `const JAN_2000: JulianDate = JulianDate(2451545.0);` -/
def JAN_2000 : ℝ := 2451545

/-- `const LEAP_SECONDS: JulianDate = JulianDate(0.0008);` -/
def LEAP_SECONDS : ℝ := 0.0008

/-- `const OBLIQUITY_OF_THE_ECLIPTIC: f64 = 23.44;` -/
def OBLIQUITY_OF_THE_ECLIPTIC : ℝ := 23.44

/-- `const ARGUMENT_OF_PERIHELION: f64 = 102.9372;` (local to both functions). -/
def ARGUMENT_OF_PERIHELION : ℝ := 102.9372

/-- Smallest Unix timestamp representable by a chrono `DateTime<Utc>`
(`-262144-01-01T00:00:00Z`); `Utc.timestamp_opt` is `None` below it. -/
def chronoMinTimestamp : ℤ := -8334632937600

/-- Largest whole-second Unix timestamp representable by a chrono `DateTime<Utc>`
(`+262143-12-31T23:59:59Z`); `Utc.timestamp_opt` is `None` above it. -/
def chronoMaxTimestamp : ℤ := 8210298412799

/-- `struct JulianDate(f64);` -/
structure JulianDate where
  val : ℝ

/-- `JulianDate::ceil_days`: `self.0.ceil()` (an `f64`, hence a real here). -/
def JulianDate.ceil_days (j : JulianDate) : ℝ := (⌈j.val⌉ : ℤ)

/-- `JulianDate::to_datetime`:
`Utc.timestamp_opt(((self - UNIX_EPOCH).0 * SECONDS_PER_DAY as f64).round() as i64, 0).single()`.
The result is the whole-second Unix timestamp of the instant; `timestamp_opt`
returns a single result exactly when the second count is in chrono's
representable range. -/
def JulianDate.to_datetime (j : JulianDate) : Option ℤ :=
  let secs := rustRound ((j.val - UNIX_EPOCH) * (SECONDS_PER_DAY : ℝ))
  if chronoMinTimestamp ≤ secs ∧ secs ≤ chronoMaxTimestamp then some secs else none

/-- `impl From<DateTime<Utc>> for JulianDate`:
`Self((date.timestamp() as f64 / SECONDS_PER_DAY as f64) + UNIX_EPOCH.0)`. -/
def JulianDate.fromDateTime (ts : ℤ) : JulianDate :=
  ⟨(ts : ℝ) / (SECONDS_PER_DAY : ℝ) + UNIX_EPOCH⟩

/-- chrono `Timelike::hour` of a UTC instant given by its Unix timestamp. -/
def hourOf (ts : ℤ) : ℝ := ((ts % 86400) / 3600 : ℤ)

/-- chrono `Timelike::minute` of a UTC instant given by its Unix timestamp. -/
def minuteOf (ts : ℤ) : ℝ := ((ts % 86400 % 3600) / 60 : ℤ)

/-- chrono `Timelike::second` of a UTC instant given by its Unix timestamp. -/
def secondOf (ts : ℤ) : ℝ := ((ts % 86400 % 60 : ℤ) : ℝ)

/-- chrono `DateTime::naive_utc().date()` as a day number relative to
1970-01-01: Euclidean division of the Unix timestamp by 86400. -/
def date_of_timestamp (ts : ℤ) : ℤ := ts / 86400

/-- The Julian date `sun_times` derives from its `date` argument (the day number
relative to 1970-01-01): `JulianDate::from(date.and_hms_opt(0, 0, 0) ...)`, and
midnight UTC of day `date` has Unix timestamp `date * 86400`.  (For `Utc`, the
`and_hms_opt`/`and_local_timezone(...).single()` steps never fail.) -/
def julian_date_of (date : ℤ) : ℝ := (JulianDate.fromDateTime (date * 86400)).val

/-! ## The straight-line body of `sun_times` (`src/lib.rs` lines 84-117)

Each `let` binding of the Rust function body becomes a definition in the `ST`
namespace, as a function of the bindings it reads. -/

namespace ST

/-- `let elevation_correction = -2.076 * (elevation.sqrt()) / 60.0;` (NaN-tracked). -/
def elevation_correction (elevation : ℝ) : Option ℝ :=
  (sqrtOpt elevation).map fun s => -2.076 * s / 60

/-- `let days_since_2000 = (julian_date - JAN_2000 + LEAP_SECONDS).ceil_days();` -/
def days_since_2000 (julian_date : ℝ) : ℝ :=
  JulianDate.ceil_days ⟨julian_date - JAN_2000 + LEAP_SECONDS⟩

/-- `let mean_solar_time = days_since_2000 - (longitude / 360.0);` -/
def mean_solar_time (julian_date longitude : ℝ) : ℝ :=
  days_since_2000 julian_date - longitude / 360

/-- `let solar_mean_anomaly = (357.5291 + 0.98560028 * mean_solar_time).rem_euclid(360.0);` -/
def solar_mean_anomaly (julian_date longitude : ℝ) : ℝ :=
  rem_euclid (357.5291 + 0.98560028 * mean_solar_time julian_date longitude) 360

/-- `let center = 1.9148 * solar_mean_anomaly.to_radians().sin() + ...;` -/
def center (julian_date longitude : ℝ) : ℝ :=
  1.9148 * Real.sin (to_radians (solar_mean_anomaly julian_date longitude))
    + 0.0200 * Real.sin (to_radians (2 * solar_mean_anomaly julian_date longitude))
    + 0.0003 * Real.sin (to_radians (3 * solar_mean_anomaly julian_date longitude))

/-- `let ecliptic_longitude = (solar_mean_anomaly + center + 180.0 + ARGUMENT_OF_PERIHELION).rem_euclid(360.0);` -/
def ecliptic_longitude (julian_date longitude : ℝ) : ℝ :=
  rem_euclid
    (solar_mean_anomaly julian_date longitude + center julian_date longitude
      + 180 + ARGUMENT_OF_PERIHELION) 360

/-- `let declination = (ecliptic_longitude.to_radians().sin() * OBLIQUITY_OF_THE_ECLIPTIC.to_radians().sin()).asin();` (NaN-tracked). -/
def declination (julian_date longitude : ℝ) : Option ℝ :=
  asinOpt (Real.sin (to_radians (ecliptic_longitude julian_date longitude))
    * Real.sin (to_radians OBLIQUITY_OF_THE_ECLIPTIC))

/-- `let event_hour_angle = (((-0.83 + elevation_correction).to_radians().sin() - (latitude.to_radians().sin() * declination.sin())) / (latitude.to_radians().cos() * declination.cos())).acos().to_degrees();` (NaN-tracked). -/
def event_hour_angle (julian_date latitude longitude elevation : ℝ) : Option ℝ :=
  match elevation_correction elevation with
  | none => none
  | some ec =>
    match declination julian_date longitude with
    | none => none
    | some decl =>
      (divAcosOpt
        (Real.sin (to_radians (-0.83 + ec))
          - Real.sin (to_radians latitude) * Real.sin decl)
        (Real.cos (to_radians latitude) * Real.cos decl)).map to_degrees

/-- `let solar_transit = JAN_2000.0 + mean_solar_time + 0.0053 * solar_mean_anomaly.to_radians().sin() - 0.0069 * (2.0 * ecliptic_longitude).to_radians().sin();` -/
def solar_transit (julian_date longitude : ℝ) : ℝ :=
  JAN_2000 + mean_solar_time julian_date longitude
    + 0.0053 * Real.sin (to_radians (solar_mean_anomaly julian_date longitude))
    - 0.0069 * Real.sin (to_radians (2 * ecliptic_longitude julian_date longitude))

/-- `let julian_rise = JulianDate(solar_transit_julian.0 - event_hour_angle / 360.0);` -/
def julian_rise (julian_date longitude event_hour_angle : ℝ) : JulianDate :=
  ⟨solar_transit julian_date longitude - event_hour_angle / 360⟩

/-- `let julian_set = JulianDate(solar_transit_julian.0 + event_hour_angle / 360.0);` -/
def julian_set (julian_date longitude event_hour_angle : ℝ) : JulianDate :=
  ⟨solar_transit julian_date longitude + event_hour_angle / 360⟩

end ST

/-- The tail of `sun_times` after the `event_hour_angle.is_nan()` early return:
convert `julian_rise`/`julian_set` and pair the results, `None` if either
conversion fails. -/
def riseAndSet (julian_date longitude event_hour_angle : ℝ) : Option (ℤ × ℤ) :=
  match (ST.julian_rise julian_date longitude event_hour_angle).to_datetime,
      (ST.julian_set julian_date longitude event_hour_angle).to_datetime with
  | some rise, some set => some (rise, set)
  | _, _ => none

/-- `pub fn sun_times(date, latitude, longitude, elevation) -> Option<(DateTime<Utc>, DateTime<Utc>)>`
(`src/lib.rs` lines 68-123).  `date` is the day number of the `NaiveDate`
relative to 1970-01-01; the returned instants are Unix timestamps. -/
def sun_times (date : ℤ) (latitude longitude elevation : ℝ) : Option (ℤ × ℤ) :=
  match ST.event_hour_angle (julian_date_of date) latitude longitude elevation with
  | none => none
  | some event_hour_angle =>
    match (ST.julian_rise (julian_date_of date) longitude event_hour_angle).to_datetime,
        (ST.julian_set (julian_date_of date) longitude event_hour_angle).to_datetime with
    | some rise, some set => some (rise, set)
    | _, _ => none

/-! ## The straight-line body of `altitude` (`src/lib.rs` lines 147-187)

`altitude` re-derives the solar geometry with its own (textually identical)
copies of the formulas; the `ALT` namespace embeds those copies separately so
that their agreement with the `ST` chain is a theorem, not a modelling choice. -/

namespace ALT

/-- `let days_since_2000 = (julian_date - JAN_2000 + LEAP_SECONDS).ceil_days();` -/
def days_since_2000 (julian_date : ℝ) : ℝ :=
  JulianDate.ceil_days ⟨julian_date - JAN_2000 + LEAP_SECONDS⟩

/-- `let mean_solar_time = days_since_2000 - (longitude / 360.0);` -/
def mean_solar_time (julian_date longitude : ℝ) : ℝ :=
  days_since_2000 julian_date - longitude / 360

/-- `let solar_mean_anomaly = (357.5291 + 0.98560028 * mean_solar_time).rem_euclid(360.0);` -/
def solar_mean_anomaly (julian_date longitude : ℝ) : ℝ :=
  rem_euclid (357.5291 + 0.98560028 * mean_solar_time julian_date longitude) 360

/-- `let center = 1.9148 * solar_mean_anomaly.to_radians().sin() + ...;` -/
def center (julian_date longitude : ℝ) : ℝ :=
  1.9148 * Real.sin (to_radians (solar_mean_anomaly julian_date longitude))
    + 0.0200 * Real.sin (to_radians (2 * solar_mean_anomaly julian_date longitude))
    + 0.0003 * Real.sin (to_radians (3 * solar_mean_anomaly julian_date longitude))

/-- `let ecliptic_longitude = (solar_mean_anomaly + center + 180.0 + ARGUMENT_OF_PERIHELION).rem_euclid(360.0);` -/
def ecliptic_longitude (julian_date longitude : ℝ) : ℝ :=
  rem_euclid
    (solar_mean_anomaly julian_date longitude + center julian_date longitude
      + 180 + ARGUMENT_OF_PERIHELION) 360

/-- `let sin_declination = ecliptic_longitude.to_radians().sin() * OBLIQUITY_OF_THE_ECLIPTIC.to_radians().sin();` -/
def sin_declination (julian_date longitude : ℝ) : ℝ :=
  Real.sin (to_radians (ecliptic_longitude julian_date longitude))
    * Real.sin (to_radians OBLIQUITY_OF_THE_ECLIPTIC)

/-- `let declination = sin_declination.asin();` (NaN-tracked). -/
def declination (julian_date longitude : ℝ) : Option ℝ :=
  asinOpt (sin_declination julian_date longitude)

/-- `let right_ascension = (ecliptic_longitude.to_radians().sin() * OBLIQUITY_OF_THE_ECLIPTIC.to_radians().cos()).atan2(ecliptic_longitude.to_radians().cos()).to_degrees();` -/
def right_ascension (julian_date longitude : ℝ) : ℝ :=
  to_degrees (atan2
    (Real.sin (to_radians (ecliptic_longitude julian_date longitude))
      * Real.cos (to_radians OBLIQUITY_OF_THE_ECLIPTIC))
    (Real.cos (to_radians (ecliptic_longitude julian_date longitude))))

/-- `let greenwich_sidereal_time = mean_solar_time + 0.0;` -/
def greenwich_sidereal_time (julian_date longitude : ℝ) : ℝ :=
  mean_solar_time julian_date longitude + 0

/-- `let local_sideral_time = greenwich_sidereal_time + (hour + minute / 60.0 + second / 60.0 * 60.0) * 15.0 + longitude.to_degrees();`
(`h`, `m`, `s` are the instant's UTC hour, minute and second as `f64`). -/
def local_sideral_time (julian_date longitude h m s : ℝ) : ℝ :=
  greenwich_sidereal_time julian_date longitude
    + (h + m / 60 + s / 60 * 60) * 15 + to_degrees longitude

/-- `let local_hour_angle = local_sideral_time - right_ascension;` -/
def local_hour_angle (julian_date longitude h m s : ℝ) : ℝ :=
  local_sideral_time julian_date longitude h m s - right_ascension julian_date longitude

end ALT

/-- Modelled from claim C2: the event-hour-angle computation of `sun_times`,
with the horizon-altitude constant (the degree value added to the elevation
correction inside the sine) abstracted as `c`.  The claim asserts the code
instantiates `c = -0.833`. -/
def event_hour_angle_with_const (c : ℝ) (julian_date latitude longitude elevation : ℝ) :
    Option ℝ :=
  match ST.elevation_correction elevation with
  | none => none
  | some ec =>
    match ST.declination julian_date longitude with
    | none => none
    | some decl =>
      (divAcosOpt
        (Real.sin (to_radians (c + ec))
          - Real.sin (to_radians latitude) * Real.sin decl)
        (Real.cos (to_radians latitude) * Real.cos decl)).map to_degrees

/-- Modelled from claim C3: the local sidereal time as the claim states it,
`mean_solar_time + (hour + minute/60 + second/3600) * 15 + longitude` with the
longitude added as plain degrees. -/
def local_sideral_time_claim (julian_date longitude h m s : ℝ) : ℝ :=
  ALT.mean_solar_time julian_date longitude + (h + m / 60 + s / 3600) * 15 + longitude

/-- `pub fn altitude(date_time: DateTime<Utc>, latitude: f64, longitude: f64) -> f64`
(`src/lib.rs` lines 147-187).  `date_time` is the instant's Unix timestamp; the
result is the altitude angle in degrees, with NaN tracked as `none`. -/
def altitude (date_time : ℤ) (latitude longitude : ℝ) : Option ℝ :=
  match ALT.declination (JulianDate.fromDateTime date_time).val longitude with
  | none => none
  | some declination =>
    (asinOpt
      (Real.sin (to_radians latitude) * Real.sin declination
        + Real.cos (to_radians latitude) * Real.cos declination
          * Real.cos (to_radians
              (ALT.local_hour_angle (JulianDate.fromDateTime date_time).val longitude
                (hourOf date_time) (minuteOf date_time) (secondOf date_time))))).map to_degrees

/-! ## Helper lemmas -/

theorem rem_euclid_eq_sub_floor (x : ℝ) :
    rem_euclid x 360 = x - 360 * ⌊x / 360⌋ := by
  unfold rem_euclid rustRem rustTrunc
  rcases le_or_lt 0 (x / 360) with hq | hq
  · rw [if_pos hq]
    have h0 : (0:ℝ) ≤ x - 360 * ⌊x / 360⌋ := by
      have := Int.floor_le (x / 360)
      nlinarith
    rw [if_neg (by linarith)]
  · rw [if_neg (not_le.mpr hq)]
    have hceil : (x / 360 : ℝ) ≤ ⌈x / 360⌉ := Int.le_ceil _
    have hx : x ≤ 360 * ⌈x / 360⌉ := by nlinarith
    rcases eq_or_lt_of_le hx with heq | hlt
    · rw [if_neg (by push_neg; nlinarith)]
      have hint : x / 360 = ((⌈x / 360⌉ : ℤ) : ℝ) := by
        field_simp; nlinarith
      rw [hint, Int.floor_intCast, Int.ceil_intCast]
    · rw [if_pos (by nlinarith)]
      have hne : ⌊x / 360⌋ < ⌈x / 360⌉ := by
        have h1 : (⌊x / 360⌋ : ℝ) ≤ x / 360 := Int.floor_le _
        have : (⌊x / 360⌋ : ℝ) < ⌈x / 360⌉ := by nlinarith
        exact_mod_cast this
      have hle : ⌈x / 360⌉ ≤ ⌊x / 360⌋ + 1 := Int.ceil_le_floor_add_one _
      have hfc : (⌈x / 360⌉ : ℤ) = ⌊x / 360⌋ + 1 := le_antisymm hle (by omega)
      have : ((⌈x / 360⌉ : ℤ) : ℝ) = (⌊x / 360⌋ : ℝ) + 1 := by exact_mod_cast hfc
      rw [abs_of_pos (by norm_num : (0:ℝ) < 360)]
      nlinarith

theorem rem_euclid_nonneg (x : ℝ) : 0 ≤ rem_euclid x 360 := by
  rw [rem_euclid_eq_sub_floor]
  have := Int.floor_le (x / 360)
  nlinarith

theorem rem_euclid_lt (x : ℝ) : rem_euclid x 360 < 360 := by
  rw [rem_euclid_eq_sub_floor]
  have := Int.lt_floor_add_one (x / 360)
  nlinarith

theorem rustRound_intCast (n : ℤ) : rustRound (n : ℝ) = n := by
  unfold rustRound
  rcases le_or_lt 0 (n : ℝ) with h | h
  · rw [if_pos h, show ((n:ℝ) + 1/2) = 1/2 + (n:ℝ) by ring, Int.floor_add_int]
    norm_num
  · rw [if_neg (not_le.mpr h), show ((n:ℝ) - 1/2) = -(1/2) + (n:ℝ) by ring, Int.ceil_add_int]
    norm_num

theorem rustRound_mono {x y : ℝ} (h : x ≤ y) : rustRound x ≤ rustRound y := by
  unfold rustRound
  rcases le_or_lt 0 x with hx | hx
  · rw [if_pos hx, if_pos (hx.trans h)]
    exact Int.floor_le_floor (by linarith)
  · rcases le_or_lt 0 y with hy | hy
    · rw [if_neg (not_le.mpr hx), if_pos hy]
      have h1 : ⌈x - 1/2⌉ ≤ 0 := Int.ceil_le.mpr (by push_cast; linarith)
      have h2 : (0:ℤ) ≤ ⌊y + 1/2⌋ := Int.le_floor.mpr (by push_cast; linarith)
      omega
    · rw [if_neg (not_le.mpr hx), if_neg (not_le.mpr hy)]
      exact Int.ceil_le_ceil (by linarith)

/-! ## Claim theorems -/

/-- C8: the solar-geometry core (`days_since_2000` via `ceil_days` with the
`0.0008` leap-second constant, mean solar time, solar mean anomaly, equation of
center, ecliptic longitude, declination) is computed by identical formulas in
`sun_times` and `altitude`: for equal Julian date and longitude inputs the two
code paths produce equal values for each intermediate quantity. -/
theorem solar_core_shared (julian_date longitude : ℝ) :
    ST.days_since_2000 julian_date = ALT.days_since_2000 julian_date ∧
    ST.mean_solar_time julian_date longitude = ALT.mean_solar_time julian_date longitude ∧
    ST.solar_mean_anomaly julian_date longitude = ALT.solar_mean_anomaly julian_date longitude ∧
    ST.center julian_date longitude = ALT.center julian_date longitude ∧
    ST.ecliptic_longitude julian_date longitude = ALT.ecliptic_longitude julian_date longitude ∧
    ST.declination julian_date longitude = ALT.declination julian_date longitude :=
  ⟨rfl, rfl, rfl, rfl, rfl, rfl⟩

/-- C7: in both `sun_times` and `altitude`, the solar mean anomaly equals
`(357.5291 + 0.98560028 * mean_solar_time)` reduced modulo `360` in the
Euclidean sense (`x - 360 * ⌊x / 360⌋`), and the result lies in `[0, 360)`. -/
theorem solar_mean_anomaly_mod_360 (julian_date longitude : ℝ) :
    (ST.solar_mean_anomaly julian_date longitude =
        (357.5291 + 0.98560028 * ST.mean_solar_time julian_date longitude) -
          360 * ⌊(357.5291 + 0.98560028 * ST.mean_solar_time julian_date longitude) / 360⌋ ∧
      0 ≤ ST.solar_mean_anomaly julian_date longitude ∧
      ST.solar_mean_anomaly julian_date longitude < 360) ∧
    (ALT.solar_mean_anomaly julian_date longitude =
        (357.5291 + 0.98560028 * ALT.mean_solar_time julian_date longitude) -
          360 * ⌊(357.5291 + 0.98560028 * ALT.mean_solar_time julian_date longitude) / 360⌋ ∧
      0 ≤ ALT.solar_mean_anomaly julian_date longitude ∧
      ALT.solar_mean_anomaly julian_date longitude < 360) :=
  ⟨⟨rem_euclid_eq_sub_floor _, rem_euclid_nonneg _, rem_euclid_lt _⟩,
    ⟨rem_euclid_eq_sub_floor _, rem_euclid_nonneg _, rem_euclid_lt _⟩⟩

/-- C5: for every UTC instant between 1970 and 2100 (as a Unix timestamp),
converting to a `JulianDate` via the Unix-epoch formula and back with
`to_datetime` yields `some` instant differing from the original by at most one
second (in fact the round-trip is exact in real arithmetic). -/
theorem julian_date_roundtrip (ts : ℤ) (h1 : 0 ≤ ts) (h2 : ts ≤ 4102444800) :
    ∃ ts2 : ℤ, (JulianDate.fromDateTime ts).to_datetime = some ts2 ∧ |ts2 - ts| ≤ 1 := by
  refine ⟨ts, ?_, by simp⟩
  have hval : ((ts : ℝ) / (SECONDS_PER_DAY : ℝ) + UNIX_EPOCH - UNIX_EPOCH)
      * (SECONDS_PER_DAY : ℝ) = (ts : ℝ) := by
    have : ((SECONDS_PER_DAY : ℕ) : ℝ) ≠ 0 := by norm_num [SECONDS_PER_DAY]
    field_simp
    ring
  simp only [JulianDate.to_datetime, JulianDate.fromDateTime, hval, rustRound_intCast]
  rw [if_pos]
  constructor
  · norm_num [chronoMinTimestamp]
    omega
  · norm_num [chronoMaxTimestamp]
    omega

/-- Witness for `julian_date_roundtrip` at the concrete instant `ts = 86400`. -/
theorem julian_date_roundtrip_witness :
    (0 : ℤ) ≤ 86400 ∧ (86400 : ℤ) ≤ 4102444800 ∧
      ∃ ts2 : ℤ, (JulianDate.fromDateTime 86400).to_datetime = some ts2 ∧ |ts2 - 86400| ≤ 1 :=
  ⟨by norm_num, by norm_num, julian_date_roundtrip 86400 (by norm_num) (by norm_num)⟩

/-- C6: a strictly negative elevation makes `elevation.sqrt()` NaN, which
propagates through the trigonometric chain into a NaN hour angle, so
`sun_times` returns `None` for every date, latitude and longitude. -/
theorem sun_times_negative_elevation_none (date : ℤ) (latitude longitude elevation : ℝ)
    (h : elevation < 0) : sun_times date latitude longitude elevation = none := by
  have hs : sqrtOpt elevation = none := by
    unfold sqrtOpt
    rw [if_neg (not_le.mpr h)]
  unfold sun_times ST.event_hour_angle ST.elevation_correction
  rw [hs]
  rfl

/-- Witness for `sun_times_negative_elevation_none` at elevation `-1`. -/
theorem sun_times_negative_elevation_none_witness :
    (-1 : ℝ) < 0 ∧ sun_times 0 0 0 (-1) = none :=
  ⟨by norm_num, sun_times_negative_elevation_none 0 0 0 (-1) (by norm_num)⟩

/-- C4: `sun_times` equals the `event_hour_angle` computation followed by the
rise/set conversion: when the hour angle is NaN (`none`: the arccosine argument
outside `[-1, 1]`, as in polar day or polar night, or a NaN propagated into it)
the NaN branch returns `None` and no numeric result; when the hour angle is a
number the NaN branch is not taken and the conversion tail runs. -/
theorem sun_times_none_iff_hour_angle_nan (date : ℤ) (latitude longitude elevation : ℝ) :
    sun_times date latitude longitude elevation =
      (ST.event_hour_angle (julian_date_of date) latitude longitude elevation).bind
        (riseAndSet (julian_date_of date) longitude) ∧
    (ST.event_hour_angle (julian_date_of date) latitude longitude elevation = none →
      sun_times date latitude longitude elevation = none) := by
  constructor
  · unfold sun_times riseAndSet
    cases ST.event_hour_angle (julian_date_of date) latitude longitude elevation <;> rfl
  · intro h
    unfold sun_times
    rw [h]

/-- Witness for `sun_times_none_iff_hour_angle_nan`: at elevation `-1` the hour
angle is NaN (`none`) and `sun_times` indeed returns `None`. -/
theorem sun_times_none_iff_hour_angle_nan_witness :
    ST.event_hour_angle (julian_date_of 0) 0 0 (-1) = none ∧ sun_times 0 0 0 (-1) = none := by
  have h : ST.event_hour_angle (julian_date_of 0) 0 0 (-1) = none := by
    have hs : sqrtOpt (-1 : ℝ) = none := by
      unfold sqrtOpt
      rw [if_neg (by norm_num)]
    unfold ST.event_hour_angle ST.elevation_correction
    rw [hs]
    rfl
  exact ⟨h, (sun_times_none_iff_hour_angle_nan 0 0 0 (-1)).2 h⟩

theorem sin_cos_combination_bounds (a b c : ℝ) (hc1 : -1 ≤ c) (hc2 : c ≤ 1) :
    -1 ≤ Real.sin a * Real.sin b + Real.cos a * Real.cos b * c ∧
      Real.sin a * Real.sin b + Real.cos a * Real.cos b * c ≤ 1 := by
  have ha := Real.sin_sq_add_cos_sq a
  have hb := Real.sin_sq_add_cos_sq b
  constructor
  · nlinarith [sq_nonneg (Real.sin a + Real.sin b),
      mul_nonneg (by linarith : (0:ℝ) ≤ 1 + c) (sq_nonneg (Real.cos a + Real.cos b)),
      mul_nonneg (by linarith : (0:ℝ) ≤ 1 - c) (sq_nonneg (Real.cos a - Real.cos b))]
  · nlinarith [sq_nonneg (Real.sin a - Real.sin b),
      mul_nonneg (by linarith : (0:ℝ) ≤ 1 + c) (sq_nonneg (Real.cos a - Real.cos b)),
      mul_nonneg (by linarith : (0:ℝ) ≤ 1 - c) (sq_nonneg (Real.cos a + Real.cos b))]

/-- C9: `altitude` has no failure path: for every UTC instant, latitude and
longitude it returns a numeric angle (`some` value, never a NaN). -/
theorem altitude_total (date_time : ℤ) (latitude longitude : ℝ) :
    (altitude date_time latitude longitude).isSome = true := by
  have habs : |ALT.sin_declination (JulianDate.fromDateTime date_time).val longitude| ≤ 1 := by
    unfold ALT.sin_declination
    rw [abs_mul]
    exact mul_le_one₀ (Real.abs_sin_le_one _) (abs_nonneg _) (Real.abs_sin_le_one _)
  have hdecl : ALT.declination (JulianDate.fromDateTime date_time).val longitude =
      some (Real.arcsin (ALT.sin_declination (JulianDate.fromDateTime date_time).val longitude)) := by
    unfold ALT.declination asinOpt
    rw [if_pos ⟨(abs_le.mp habs).1, (abs_le.mp habs).2⟩]
  have h2 := sin_cos_combination_bounds (to_radians latitude)
    (Real.arcsin (ALT.sin_declination (JulianDate.fromDateTime date_time).val longitude))
    (Real.cos (to_radians (ALT.local_hour_angle (JulianDate.fromDateTime date_time).val longitude
      (hourOf date_time) (minuteOf date_time) (secondOf date_time))))
    (Real.neg_one_le_cos _) (Real.cos_le_one _)
  have hsome : asinOpt
      (Real.sin (to_radians latitude)
          * Real.sin (Real.arcsin (ALT.sin_declination (JulianDate.fromDateTime date_time).val longitude))
        + Real.cos (to_radians latitude)
            * Real.cos (Real.arcsin (ALT.sin_declination (JulianDate.fromDateTime date_time).val longitude))
          * Real.cos (to_radians (ALT.local_hour_angle (JulianDate.fromDateTime date_time).val longitude
              (hourOf date_time) (minuteOf date_time) (secondOf date_time)))) =
      some (Real.arcsin
        (Real.sin (to_radians latitude)
            * Real.sin (Real.arcsin (ALT.sin_declination (JulianDate.fromDateTime date_time).val longitude))
          + Real.cos (to_radians latitude)
              * Real.cos (Real.arcsin (ALT.sin_declination (JulianDate.fromDateTime date_time).val longitude))
            * Real.cos (to_radians (ALT.local_hour_angle (JulianDate.fromDateTime date_time).val longitude
                (hourOf date_time) (minuteOf date_time) (secondOf date_time))))) := by
    unfold asinOpt
    rw [if_pos h2]
  unfold altitude
  rw [hdecl]
  dsimp only
  rw [hsome]
  rfl

theorem event_hour_angle_bounds (julian_date latitude longitude elevation : ℝ) :
    ∀ ha, ST.event_hour_angle julian_date latitude longitude elevation = some ha →
      0 ≤ ha ∧ ha ≤ 180 := by
  unfold ST.event_hour_angle
  cases ST.elevation_correction elevation with
  | none => exact fun ha h => Option.noConfusion h
  | some ec =>
    cases ST.declination julian_date longitude with
    | none => exact fun ha h => Option.noConfusion h
    | some decl =>
      dsimp only
      unfold divAcosOpt
      split_ifs with hden hin
      · exact fun ha h => Option.noConfusion h
      · intro ha h
        injection h with h
        subst h
        refine ⟨mul_nonneg (Real.arccos_nonneg _)
          (le_of_lt (div_pos (by norm_num) Real.pi_pos)), ?_⟩
        have h1 : Real.arccos ((Real.sin (to_radians (-0.83 + ec))
              - Real.sin (to_radians latitude) * Real.sin decl) /
              (Real.cos (to_radians latitude) * Real.cos decl)) * (180 / Real.pi)
            ≤ Real.pi * (180 / Real.pi) :=
          mul_le_mul_of_nonneg_right (Real.arccos_le_pi _)
            (le_of_lt (div_pos (by norm_num) Real.pi_pos))
        have h2 : Real.pi * (180 / Real.pi) = 180 := by field_simp
        unfold to_degrees
        linarith
      · exact fun ha h => Option.noConfusion h

/-- C10: whenever the hour angle is a number, sunrise and sunset Julian dates
are placed symmetrically about the solar transit and the hour angle lies in
`[0, 180]` degrees; whenever `sun_times` returns `some (rise, set)`, `rise` is
never later than `set`. -/
theorem rise_le_set (date : ℤ) (latitude longitude elevation : ℝ) :
    ((ST.event_hour_angle (julian_date_of date) latitude longitude elevation).elim True
      fun ha => 0 ≤ ha ∧ ha ≤ 180 ∧
        (ST.julian_rise (julian_date_of date) longitude ha).val =
          ST.solar_transit (julian_date_of date) longitude - ha / 360 ∧
        (ST.julian_set (julian_date_of date) longitude ha).val =
          ST.solar_transit (julian_date_of date) longitude + ha / 360) ∧
    ((sun_times date latitude longitude elevation).elim True fun p => p.1 ≤ p.2) := by
  have hbounds := event_hour_angle_bounds (julian_date_of date) latitude longitude elevation
  constructor
  · cases h : ST.event_hour_angle (julian_date_of date) latitude longitude elevation with
    | none => exact trivial
    | some ha => exact ⟨(hbounds ha h).1, (hbounds ha h).2, rfl, rfl⟩
  · unfold sun_times
    cases h : ST.event_hour_angle (julian_date_of date) latitude longitude elevation with
    | none => exact trivial
    | some ha =>
      dsimp only
      have h0 : 0 ≤ ha := (hbounds ha h).1
      cases hr : (ST.julian_rise (julian_date_of date) longitude ha).to_datetime with
      | none =>
        cases (ST.julian_set (julian_date_of date) longitude ha).to_datetime <;> exact trivial
      | some r =>
        cases hs : (ST.julian_set (julian_date_of date) longitude ha).to_datetime with
        | none => exact trivial
        | some s =>
          have hrr : r = rustRound (((ST.julian_rise (julian_date_of date) longitude ha).val
              - UNIX_EPOCH) * (SECONDS_PER_DAY : ℝ)) := by
            unfold JulianDate.to_datetime at hr
            dsimp only at hr
            split_ifs at hr
            · injection hr with hr
              exact hr.symm
          have hss : s = rustRound (((ST.julian_set (julian_date_of date) longitude ha).val
              - UNIX_EPOCH) * (SECONDS_PER_DAY : ℝ)) := by
            unfold JulianDate.to_datetime at hs
            dsimp only at hs
            split_ifs at hs
            · injection hs with hs
              exact hs.symm
          show r ≤ s
          rw [hrr, hss]
          apply rustRound_mono
          have hval : (ST.julian_rise (julian_date_of date) longitude ha).val ≤
              (ST.julian_set (julian_date_of date) longitude ha).val := by
            unfold ST.julian_rise ST.julian_set
            dsimp only
            have : 0 ≤ ha / 360 := div_nonneg h0 (by norm_num)
            linarith
          exact mul_le_mul_of_nonneg_right (by linarith) (by positivity)

theorem days_since_2000_eval (d : ℤ) :
    ST.days_since_2000 (julian_date_of d) = (d : ℝ) - 10957 := by
  unfold ST.days_since_2000 julian_date_of JulianDate.fromDateTime JulianDate.ceil_days
    UNIX_EPOCH JAN_2000 LEAP_SECONDS SECONDS_PER_DAY
  have hval : ((d * 86400 : ℤ) : ℝ) / ((24 * 60 * 60 : ℕ) : ℝ) + 2440587.5 - 2451545 + 0.0008 =
      (-10957.4992 : ℝ) + (d : ℝ) := by
    push_cast
    ring
  dsimp only
  rw [hval]
  rw [show ((d : ℝ)) = ((d : ℤ) : ℝ) by norm_num, Int.ceil_add_int]
  have : ⌈(-10957.4992 : ℝ)⌉ = -10957 := by
    rw [Int.ceil_eq_iff]
    constructor <;> norm_num
  rw [this]
  push_cast
  ring

theorem alt_days_since_2000_eval (d : ℤ) :
    ALT.days_since_2000 (julian_date_of d) = (d : ℝ) - 10957 :=
  days_since_2000_eval d

/-- C3 counterexample: the claimed local-sidereal-time formula disagrees with
the code, both in the seconds term (at 30 seconds past midnight) and in the
longitude term (at longitude 180°). -/
theorem local_sideral_time_counterexample :
    ALT.local_sideral_time (julian_date_of 0) 0 0 0 30 ≠
      local_sideral_time_claim (julian_date_of 0) 0 0 0 30 ∧
    ALT.local_sideral_time (julian_date_of 0) 180 0 0 0 ≠
      local_sideral_time_claim (julian_date_of 0) 180 0 0 0 := by
  have hd : ALT.days_since_2000 (julian_date_of 0) = ((0 : ℤ) : ℝ) - 10957 :=
    alt_days_since_2000_eval 0
  constructor
  · unfold ALT.local_sideral_time ALT.greenwich_sidereal_time local_sideral_time_claim
      ALT.mean_solar_time to_degrees
    rw [hd]
    norm_num
  · unfold ALT.local_sideral_time ALT.greenwich_sidereal_time local_sideral_time_claim
      ALT.mean_solar_time to_degrees
    rw [hd]
    intro hEq
    have hpi := Real.pi_ne_zero
    have hpi2 := Real.pi_lt_d2
    have hpi3 := Real.pi_gt_three
    field_simp at hEq
    nlinarith

/-- C3 amended: in `altitude`, the local sidereal time equals
`mean_solar_time + (hour + minute/60 + second) * 15 + longitude * (180 / π)`:
the seconds term is divided by 60 and immediately multiplied by 60 again (so it
contributes whole units, not `second/3600`), and the longitude passes through
`f64::to_degrees`, scaling it by `180 / π` instead of adding plain degrees. -/
theorem local_sideral_time_formula (julian_date longitude hh mm ss : ℝ) :
    ALT.local_sideral_time julian_date longitude hh mm ss =
      ALT.mean_solar_time julian_date longitude
        + (hh + mm / 60 + ss) * 15 + longitude * (180 / Real.pi) := by
  unfold ALT.local_sideral_time ALT.greenwich_sidereal_time to_degrees
  rw [div_mul_cancel₀ ss (by norm_num : (60:ℝ) ≠ 0)]
  ring

theorem obliquity_sine_bounds :
    0 ≤ Real.sin (to_radians OBLIQUITY_OF_THE_ECLIPTIC) ∧
      Real.sin (to_radians OBLIQUITY_OF_THE_ECLIPTIC) ≤ 0.40913 := by
  have hpi3 := Real.pi_gt_three
  have hpiU := Real.pi_lt_d6
  have hr : to_radians OBLIQUITY_OF_THE_ECLIPTIC = 23.44 * (Real.pi / 180) := rfl
  have hnn : (0:ℝ) ≤ 23.44 * (Real.pi / 180) := by positivity
  constructor
  · rw [hr]
    exact Real.sin_nonneg_of_nonneg_of_le_pi hnn (by nlinarith)
  · rw [hr]
    have := Real.sin_le hnn
    nlinarith

theorem declination_some_and_cos_bound (u : ℝ) :
    asinOpt (Real.sin u * Real.sin (to_radians OBLIQUITY_OF_THE_ECLIPTIC)) =
      some (Real.arcsin (Real.sin u * Real.sin (to_radians OBLIQUITY_OF_THE_ECLIPTIC))) ∧
    |Real.sin u * Real.sin (to_radians OBLIQUITY_OF_THE_ECLIPTIC)| ≤ 0.40913 ∧
    0.912 ≤ Real.cos (Real.arcsin
      (Real.sin u * Real.sin (to_radians OBLIQUITY_OF_THE_ECLIPTIC))) := by
  obtain ⟨hnn, hle⟩ := obliquity_sine_bounds
  have habs : |Real.sin u * Real.sin (to_radians OBLIQUITY_OF_THE_ECLIPTIC)| ≤ 0.40913 := by
    rw [abs_mul]
    calc |Real.sin u| * |Real.sin (to_radians OBLIQUITY_OF_THE_ECLIPTIC)|
        ≤ 1 * 0.40913 := by
          apply mul_le_mul (Real.abs_sin_le_one u) _ (abs_nonneg _) (by norm_num)
          rw [abs_of_nonneg hnn]
          exact hle
      _ = 0.40913 := by norm_num
  have hmem := abs_le.mp habs
  refine ⟨?_, habs, ?_⟩
  · unfold asinOpt
    rw [if_pos ⟨by linarith, by linarith⟩]
  · rw [Real.cos_arcsin]
    have hsq : (Real.sin u * Real.sin (to_radians OBLIQUITY_OF_THE_ECLIPTIC)) ^ 2 ≤ 0.40913 ^ 2 := by
      rw [← sq_abs]
      exact pow_le_pow_left₀ (abs_nonneg _) habs 2
    exact (Real.le_sqrt (by norm_num) (by nlinarith)).mpr (by nlinarith)

/-- C2 counterexample: at date `1970-01-01`, latitude `0`, longitude `0`,
elevation `0`, the hour angle the code computes (with its constant `-0.83`)
differs from the hour angle the claimed formula computes with `-0.833`. -/
theorem event_hour_angle_constant_counterexample :
    ST.event_hour_angle (julian_date_of 0) 0 0 0 ≠
      event_hour_angle_with_const (-0.833) (julian_date_of 0) 0 0 0 := by
  have hpi3 := Real.pi_gt_three
  have hpi315 := Real.pi_lt_d2
  have hpipos := Real.pi_pos
  have hec : ST.elevation_correction 0 = some 0 := by
    unfold ST.elevation_correction sqrtOpt
    rw [if_pos le_rfl, Real.sqrt_zero]
    norm_num
  obtain ⟨hdecl, habst, hcos⟩ := declination_some_and_cos_bound
    (to_radians (ST.ecliptic_longitude (julian_date_of 0) 0))
  have hdecl' : ST.declination (julian_date_of 0) 0 =
      some (Real.arcsin (Real.sin (to_radians (ST.ecliptic_longitude (julian_date_of 0) 0))
        * Real.sin (to_radians OBLIQUITY_OF_THE_ECLIPTIC))) := hdecl
  -- abbreviations
  have h0r : to_radians 0 = 0 := by
    unfold to_radians
    ring
  have hc83 : to_radians (-0.83 + 0) = -0.83 * (Real.pi / 180) := by
    unfold to_radians
    norm_num
  have hc833 : to_radians (-0.833 + 0) = -0.833 * (Real.pi / 180) := by
    unfold to_radians
    norm_num
  -- bounds on the two sines
  have hsa : |Real.sin (-0.83 * (Real.pi / 180))| ≤ 0.0146 := by
    have h1 := Real.abs_sin_le_abs (x := -0.83 * (Real.pi / 180))
    have h2 : |(-0.83 : ℝ) * (Real.pi / 180)| = 0.83 * (Real.pi / 180) := by
      rw [abs_mul, abs_of_pos (by positivity : (0:ℝ) < Real.pi / 180)]
      norm_num
    rw [h2] at h1
    nlinarith
  have hsb : |Real.sin (-0.833 * (Real.pi / 180))| ≤ 0.0146 := by
    have h1 := Real.abs_sin_le_abs (x := -0.833 * (Real.pi / 180))
    have h2 : |(-0.833 : ℝ) * (Real.pi / 180)| = 0.833 * (Real.pi / 180) := by
      rw [abs_mul, abs_of_pos (by positivity : (0:ℝ) < Real.pi / 180)]
      norm_num
    rw [h2] at h1
    nlinarith
  set dec := Real.arcsin (Real.sin (to_radians (ST.ecliptic_longitude (julian_date_of 0) 0))
    * Real.sin (to_radians OBLIQUITY_OF_THE_ECLIPTIC)) with hdec
  have hcpos : (0:ℝ) < Real.cos dec := by linarith
  -- the two arccos arguments and their properties
  have harg : ∀ x : ℝ, |x| ≤ 0.0146 →
      -1 ≤ x / Real.cos dec ∧ x / Real.cos dec ≤ 1 := by
    intro x hx
    have : |x / Real.cos dec| ≤ 1 := by
      rw [abs_div, abs_of_pos hcpos, div_le_one hcpos]
      linarith [abs_nonneg x]
    exact abs_le.mp this
  have hargA := harg _ hsa
  have hargB := harg _ hsb
  have hlt : Real.sin (-0.833 * (Real.pi / 180)) < Real.sin (-0.83 * (Real.pi / 180)) := by
    have hmem : ∀ c : ℝ, -0.9 ≤ c → c ≤ 0 →
        c * (Real.pi / 180) ∈ Set.Icc (-(Real.pi / 2)) (Real.pi / 2) := by
      intro c h1 h2
      constructor <;> nlinarith
    exact Real.strictMonoOn_sin (hmem (-0.833) (by norm_num) (by norm_num))
      (hmem (-0.83) (by norm_num) (by norm_num)) (by nlinarith)
  have hargs : Real.sin (-0.833 * (Real.pi / 180)) / Real.cos dec <
      Real.sin (-0.83 * (Real.pi / 180)) / Real.cos dec :=
    (div_lt_div_iff_of_pos_right hcpos).mpr hlt
  have harccos : Real.arccos (Real.sin (-0.83 * (Real.pi / 180)) / Real.cos dec) <
      Real.arccos (Real.sin (-0.833 * (Real.pi / 180)) / Real.cos dec) :=
    Real.strictAntiOn_arccos ⟨hargB.1, hargB.2⟩ ⟨hargA.1, hargA.2⟩ hargs
  -- compute both sides
  have hdivA : divAcosOpt (Real.sin (-0.83 * (Real.pi / 180))) (Real.cos dec) =
      some (Real.arccos (Real.sin (-0.83 * (Real.pi / 180)) / Real.cos dec)) := by
    unfold divAcosOpt
    rw [if_neg (by linarith), if_pos hargA]
  have hdivB : divAcosOpt (Real.sin (-0.833 * (Real.pi / 180))) (Real.cos dec) =
      some (Real.arccos (Real.sin (-0.833 * (Real.pi / 180)) / Real.cos dec)) := by
    unfold divAcosOpt
    rw [if_neg (by linarith), if_pos hargB]
  unfold ST.event_hour_angle event_hour_angle_with_const
  rw [hec]
  dsimp only
  rw [hdecl']
  dsimp only
  rw [h0r, hc83, hc833, Real.sin_zero, Real.cos_zero, zero_mul, one_mul, sub_zero, sub_zero,
    hdivA, hdivB]
  simp only [Option.map_some', ne_eq, Option.some.injEq]
  unfold to_degrees
  intro hEq
  have h180 : (180 : ℝ) / Real.pi ≠ 0 := div_ne_zero (by norm_num) Real.pi_ne_zero
  have := mul_right_cancel₀ h180 hEq
  linarith

/-- C2 amended: for every input, the event hour angle is
`acos((sin(c + elevation_correction) - sin(lat) * sin(decl)) / (cos(lat) * cos(decl)))`
converted to degrees, with the horizon-altitude constant `c = -0.83` (not
`-0.833` as claimed). -/
theorem event_hour_angle_const_83 (julian_date latitude longitude elevation : ℝ) :
    ST.event_hour_angle julian_date latitude longitude elevation =
      event_hour_angle_with_const (-0.83) julian_date latitude longitude elevation := rfl

theorem arccos_antitone {x y : ℝ} (h : x ≤ y) : Real.arccos y ≤ Real.arccos x := by
  unfold Real.arccos
  have := Real.monotone_arcsin h
  linarith

theorem rustRound_near {x : ℝ} (hx : 0 ≤ x) :
    x - 1 ≤ (rustRound x : ℝ) ∧ (rustRound x : ℝ) ≤ x + 1 := by
  unfold rustRound
  rw [if_pos hx]
  constructor
  · linarith [Int.sub_one_lt_floor (x + 1 / 2)]
  · linarith [Int.floor_le (x + 1 / 2)]

theorem elevation_correction_zero : ST.elevation_correction 0 = some 0 := by
  unfold ST.elevation_correction sqrtOpt
  rw [if_pos le_rfl, Real.sqrt_zero]
  norm_num

theorem cos_lower_bound (x lo hi : ℝ) (h1 : lo ≤ x) (h2 : x ≤ hi) (h3 : 0 ≤ lo) (h4 : hi ≤ 1) :
    1 - hi ^ 2 / 2 - hi ^ 4 * (5 / 96) ≤ Real.cos x := by
  have hx0 : 0 ≤ x := le_trans h3 h1
  have habs : |x| ≤ 1 := by
    rw [abs_of_nonneg hx0]
    linarith
  have hb := abs_le.mp (Real.cos_bound habs)
  rw [abs_of_nonneg hx0] at hb
  have p2 : x ^ 2 ≤ hi ^ 2 := pow_le_pow_left₀ hx0 (by linarith) 2
  have p4 : x ^ 4 ≤ hi ^ 4 := pow_le_pow_left₀ hx0 (by linarith) 4
  linarith [hb.1, hb.2]

set_option maxHeartbeats 1000000 in
/-- C1: for every calendar day of 2022 (day numbers 18993 to 19357 relative to
1970-01-01), `sun_times` at latitude `53.38`, longitude `-1.48`, elevation `0`
returns `some (rise, set)` with both instants on the same UTC calendar date as
the input date. -/
theorem sun_times_day_alignment_2022 (d : ℤ) (hd1 : 18993 ≤ d) (hd2 : d ≤ 19357) :
    ∃ rise sunset : ℤ, sun_times d 53.38 (-1.48) 0 = some (rise, sunset) ∧
      date_of_timestamp rise = d ∧ date_of_timestamp sunset = d := by
  have hpiL := Real.pi_gt_d6
  have hpiU := Real.pi_lt_d6
  have hpi_pos := Real.pi_pos
  have hdR : (18993 : ℝ) ≤ (d : ℝ) := by exact_mod_cast hd1
  -- declination: some value with controlled sine and cosine
  obtain ⟨hdecl, habst, hcos⟩ := declination_some_and_cos_bound
    (to_radians (ST.ecliptic_longitude (julian_date_of d) (-1.48)))
  set t := Real.sin (to_radians (ST.ecliptic_longitude (julian_date_of d) (-1.48)))
    * Real.sin (to_radians OBLIQUITY_OF_THE_ECLIPTIC) with ht
  set dec := Real.arcsin t with hdecdef
  have hdecl' : ST.declination (julian_date_of d) (-1.48) = some dec := hdecl
  have htmem := abs_le.mp habst
  have hsindec : Real.sin dec = t := Real.sin_arcsin (by linarith) (by linarith)
  -- latitude in radians and its cosine
  have hlat_eq : to_radians 53.38 = 53.38 * (Real.pi / 180) := rfl
  have hlatB1 : (0.931656 : ℝ) ≤ to_radians 53.38 := by
    rw [hlat_eq]
    nlinarith
  have hlatB2 : to_radians 53.38 ≤ 0.931657 := by
    rw [hlat_eq]
    nlinarith
  have hcoslat : (0.5267 : ℝ) ≤ Real.cos (to_radians 53.38) := by
    have := cos_lower_bound (to_radians 53.38) 0.931656 0.931657 hlatB1 hlatB2
      (by norm_num) (by norm_num)
    linarith
  -- the -0.83 degree horizon constant
  have hc83 : to_radians (-0.83 + 0) = -0.83 * (Real.pi / 180) := by
    unfold to_radians
    norm_num
  have hsin83 : |Real.sin (to_radians (-0.83 + 0))| ≤ 0.0145 := by
    rw [hc83]
    have h1 := Real.abs_sin_le_abs (x := -0.83 * (Real.pi / 180))
    have h2 : |(-0.83 : ℝ) * (Real.pi / 180)| = 0.83 * (Real.pi / 180) := by
      rw [abs_mul, abs_of_pos (by positivity : (0:ℝ) < Real.pi / 180)]
      norm_num
    rw [h2] at h1
    nlinarith
  -- hour-angle argument bounds
  set num := Real.sin (to_radians (-0.83 + 0))
    - Real.sin (to_radians 53.38) * Real.sin dec with hnumdef
  set den := Real.cos (to_radians 53.38) * Real.cos dec with hdendef
  have hdenlo : (0.48 : ℝ) ≤ den := by
    rw [hdendef]
    nlinarith
  have hnumabs : |num| ≤ 0.4237 := by
    rw [hnumdef]
    have h1 : |Real.sin (to_radians 53.38) * Real.sin dec| ≤ 0.40913 := by
      rw [hsindec, abs_mul]
      nlinarith [Real.abs_sin_le_one (to_radians 53.38), abs_nonneg t,
        abs_nonneg (Real.sin (to_radians 53.38))]
    calc |Real.sin (to_radians (-0.83 + 0)) - Real.sin (to_radians 53.38) * Real.sin dec|
        ≤ |Real.sin (to_radians (-0.83 + 0))|
          + |Real.sin (to_radians 53.38) * Real.sin dec| := abs_sub _ _
      _ ≤ 0.0145 + 0.40913 := add_le_add hsin83 h1
      _ ≤ 0.4237 := by norm_num
  have hargabs : |num / den| ≤ 0.883 := by
    rw [abs_div, abs_of_pos (by linarith : (0:ℝ) < den)]
    rw [div_le_iff₀ (by linarith)]
    nlinarith [abs_nonneg num]
  have hargmem := abs_le.mp hargabs
  -- bracketing the arccosine
  have harc_pi : (2.67 : ℝ) ≤ Real.pi := by nlinarith
  have hcos267 : Real.cos 2.67 ≤ -0.883 := by
    have hy : (2.67 : ℝ) = Real.pi - (Real.pi - 2.67) := by ring
    rw [hy, Real.cos_pi_sub]
    have h1 : (0.471592 : ℝ) ≤ Real.pi - 2.67 := by nlinarith
    have h2 : Real.pi - 2.67 ≤ 0.471593 := by nlinarith
    have := cos_lower_bound (Real.pi - 2.67) 0.471592 0.471593 h1 h2
      (by norm_num) (by norm_num)
    nlinarith
  have hcos047 : (0.883 : ℝ) ≤ Real.cos 0.47 := by
    have := cos_lower_bound 0.47 0.47 0.47 le_rfl le_rfl (by norm_num) (by norm_num)
    linarith
  set A := Real.arccos (num / den) with hAdef
  have hAhi : A ≤ 2.67 := by
    have h1 : Real.cos 2.67 ≤ num / den := by linarith [hargmem.1]
    have h2 := arccos_antitone h1
    rwa [Real.arccos_cos (by norm_num) harc_pi] at h2
  have hAlo : (0.47 : ℝ) ≤ A := by
    have h1 : num / den ≤ Real.cos 0.47 := by linarith [hargmem.2]
    have h2 := arccos_antitone h1
    rwa [Real.arccos_cos (by norm_num) (by nlinarith)] at h2
  -- hour angle in degrees
  set haDeg := to_degrees A with hhaDeg
  have hhaDeg_eq : haDeg = A * (180 / Real.pi) := rfl
  have h57295 : (57.295 : ℝ) ≤ 180 / Real.pi := by
    rw [le_div_iff₀ hpi_pos]
    nlinarith
  have h57296 : (180 : ℝ) / Real.pi ≤ 57.296 := by
    rw [div_le_iff₀ hpi_pos]
    nlinarith
  have hhaB1 : (26.9 : ℝ) ≤ haDeg := by
    rw [hhaDeg_eq]
    nlinarith
  have hhaB2 : haDeg ≤ 153 := by
    rw [hhaDeg_eq]
    have hA0 : 0 ≤ A := Real.arccos_nonneg _
    nlinarith
  -- the hour angle the code computes
  have hEHA : ST.event_hour_angle (julian_date_of d) 53.38 (-1.48) 0 = some haDeg := by
    have hdiv : divAcosOpt num den = some A := by
      unfold divAcosOpt
      rw [if_neg (by intro h0; rw [h0] at hdenlo; norm_num at hdenlo),
        if_pos ⟨by linarith [hargmem.1], by linarith [hargmem.2]⟩]
    unfold ST.event_hour_angle
    rw [elevation_correction_zero]
    dsimp only
    rw [hdecl']
    dsimp only
    rw [← hnumdef, ← hdendef, hdiv]
    rfl
  -- solar transit value
  have hmst : ST.mean_solar_time (julian_date_of d) (-1.48) =
      (d : ℝ) - 10957 + 1.48 / 360 := by
    unfold ST.mean_solar_time
    rw [days_since_2000_eval d]
    norm_num
  have htransit : ST.solar_transit (julian_date_of d) (-1.48) =
      2451545 + ((d : ℝ) - 10957 + 1.48 / 360)
        + 0.0053 * Real.sin (to_radians (ST.solar_mean_anomaly (julian_date_of d) (-1.48)))
        - 0.0069 * Real.sin (to_radians (2 * ST.ecliptic_longitude (julian_date_of d) (-1.48))) := by
    unfold ST.solar_transit JAN_2000
    rw [hmst]
  have heps1 := Real.neg_one_le_sin (to_radians (ST.solar_mean_anomaly (julian_date_of d) (-1.48)))
  have heps2 := Real.sin_le_one (to_radians (ST.solar_mean_anomaly (julian_date_of d) (-1.48)))
  have heps3 := Real.neg_one_le_sin (to_radians (2 * ST.ecliptic_longitude (julian_date_of d) (-1.48)))
  have heps4 := Real.sin_le_one (to_radians (2 * ST.ecliptic_longitude (julian_date_of d) (-1.48)))
  have htB : (d : ℝ) + 0.4919 ≤ ST.solar_transit (julian_date_of d) (-1.48) - 2440587.5 ∧
      ST.solar_transit (julian_date_of d) (-1.48) - 2440587.5 ≤ (d : ℝ) + 0.5164 := by
    rw [htransit]
    constructor <;> linarith only [heps1, heps2, heps3, heps4]
  -- sunrise timestamp
  set riseSec := ((ST.julian_rise (julian_date_of d) (-1.48) haDeg).val - UNIX_EPOCH)
    * (SECONDS_PER_DAY : ℝ) with hriseSecdef
  have hriseval : (ST.julian_rise (julian_date_of d) (-1.48) haDeg).val =
      ST.solar_transit (julian_date_of d) (-1.48) - haDeg / 360 := rfl
  have hriseSecB : (d : ℝ) * 86400 + 5770 ≤ riseSec ∧ riseSec ≤ (d : ℝ) * 86400 + 38163 := by
    have hrs : riseSec = (ST.solar_transit (julian_date_of d) (-1.48) - 2440587.5
        - haDeg / 360) * 86400 := by
      rw [hriseSecdef, hriseval]
      have hu : UNIX_EPOCH = 2440587.5 := rfl
      have hs : ((SECONDS_PER_DAY : ℕ) : ℝ) = 86400 := by norm_num [SECONDS_PER_DAY]
      rw [hu, hs]
      ring
    rw [hrs]
    constructor <;> linarith only [htB.1, htB.2, hhaB1, hhaB2]
  have hriseSec0 : (0 : ℝ) ≤ riseSec := by linarith only [hriseSecB.1, hdR]
  obtain ⟨hrlo, hrhi⟩ := rustRound_near hriseSec0
  set r := rustRound riseSec with hrdef
  have hrB : d * 86400 ≤ r ∧ r ≤ d * 86400 + 86399 := by
    constructor
    · have hq : ((d * 86400 : ℤ) : ℝ) ≤ (r : ℝ) := by
        push_cast
        linarith only [hriseSecB.1, hrlo]
      exact_mod_cast hq
    · have hq : (r : ℝ) ≤ ((d * 86400 + 86399 : ℤ) : ℝ) := by
        push_cast
        linarith only [hriseSecB.2, hrhi]
      exact_mod_cast hq
  have hrise_dt : (ST.julian_rise (julian_date_of d) (-1.48) haDeg).to_datetime = some r := by
    unfold JulianDate.to_datetime
    dsimp only
    rw [← hriseSecdef, ← hrdef]
    have hrange : chronoMinTimestamp ≤ r ∧ r ≤ chronoMaxTimestamp := by
      unfold chronoMinTimestamp chronoMaxTimestamp
      omega
    rw [if_pos hrange]
  -- sunset timestamp
  set setSec := ((ST.julian_set (julian_date_of d) (-1.48) haDeg).val - UNIX_EPOCH)
    * (SECONDS_PER_DAY : ℝ) with hsetSecdef
  have hsetval : (ST.julian_set (julian_date_of d) (-1.48) haDeg).val =
      ST.solar_transit (julian_date_of d) (-1.48) + haDeg / 360 := rfl
  have hsetSecB : (d : ℝ) * 86400 + 48950 ≤ setSec ∧ setSec ≤ (d : ℝ) * 86400 + 81340 := by
    have hrs : setSec = (ST.solar_transit (julian_date_of d) (-1.48) - 2440587.5
        + haDeg / 360) * 86400 := by
      rw [hsetSecdef, hsetval]
      have hu : UNIX_EPOCH = 2440587.5 := rfl
      have hs : ((SECONDS_PER_DAY : ℕ) : ℝ) = 86400 := by norm_num [SECONDS_PER_DAY]
      rw [hu, hs]
      ring
    rw [hrs]
    constructor <;> linarith only [htB.1, htB.2, hhaB1, hhaB2]
  have hsetSec0 : (0 : ℝ) ≤ setSec := by linarith only [hsetSecB.1, hdR]
  obtain ⟨hslo, hshi⟩ := rustRound_near hsetSec0
  set s := rustRound setSec with hsdef
  have hsB : d * 86400 ≤ s ∧ s ≤ d * 86400 + 86399 := by
    constructor
    · have hq : ((d * 86400 : ℤ) : ℝ) ≤ (s : ℝ) := by
        push_cast
        linarith only [hsetSecB.1, hslo]
      exact_mod_cast hq
    · have hq : (s : ℝ) ≤ ((d * 86400 + 86399 : ℤ) : ℝ) := by
        push_cast
        linarith only [hsetSecB.2, hshi]
      exact_mod_cast hq
  have hset_dt : (ST.julian_set (julian_date_of d) (-1.48) haDeg).to_datetime = some s := by
    unfold JulianDate.to_datetime
    dsimp only
    rw [← hsetSecdef, ← hsdef]
    have hrange : chronoMinTimestamp ≤ s ∧ s ≤ chronoMaxTimestamp := by
      unfold chronoMinTimestamp chronoMaxTimestamp
      omega
    rw [if_pos hrange]
  -- assemble
  refine ⟨r, s, ?_, ?_, ?_⟩
  · unfold sun_times
    rw [hEHA]
    dsimp only
    rw [hrise_dt, hset_dt]
  · unfold date_of_timestamp
    omega
  · unfold date_of_timestamp
    omega

/-- Witness for `sun_times_day_alignment_2022` at the concrete date 2022-01-01
(day number 18993). -/
theorem sun_times_day_alignment_2022_witness :
    (18993 : ℤ) ≤ 18993 ∧ (18993 : ℤ) ≤ 19357 ∧
      ∃ rise sunset : ℤ, sun_times 18993 53.38 (-1.48) 0 = some (rise, sunset) ∧
        date_of_timestamp rise = 18993 ∧ date_of_timestamp sunset = 18993 :=
  ⟨le_refl _, by norm_num,
    sun_times_day_alignment_2022 18993 (le_refl _) (by norm_num)⟩

end

end SunTimes
